import Mathlib

/-!
Verification of the task lifecycle streaming engine of `backend/api.py`
(repository Zeeeepa/CPR).

The development shallowly embeds the components relevant to the task
lifecycle claims:

* the loosely typed remote task handle snapshot (`Snapshot`),
* the result extraction chain (`extractResult`, from `AgentClient._extract_result`,
  the same chain as inlined in the two streaming generators),
* the per-tick status classification performed by the polling loops
  (`classifyStatusStr` / `classifyTick`),
* the enhanced streaming generator `stream_task_updates_enhanced`
  (`enhLoop` / `enhEpilogue` / `enhTrace`),
* the SSE streaming generator `stream_task_events.event_generator`
  (`sseLoop` / `sseRun`),
* the process-wide task registry `active_tasks` together with the store,
  pop and cancel operations of `run_task`, the generator cleanup and
  `cancel_task` (`storeTask`, `popTask`, `cancelTask`).

Timestamps in the emitted JSON objects are wall-clock data and are not
modelled; the `"[DONE]"` sentinel yielded after a terminal event is SSE
framing, not one of the event kinds of the design, and is likewise not
part of the event traces.
-/

namespace CPR

/-- Python truthiness of an optional string field: `None` and `""` are falsy. -/
def strTruthy : Option String → Bool
  | none => false
  | some s => !(s == "")

/-- Loosely typed value of the `result` / `summary` fields: either a plain
string or a string-valued structured map (a Python dict). -/
inductive ResVal where
  | str (s : String)
  | dict (kvs : List (String × String))
deriving DecidableEq, Repr

/-- Python truthiness of an optional result value: `None`, `""` and `{}` are falsy. -/
def resTruthy : Option ResVal → Bool
  | none => false
  | some (.str s) => !(s == "")
  | some (.dict kvs) => !(kvs == [])

/-- Snapshot of the remote task handle, as read after `task.refresh()`.
A `none` field models an absent attribute (`hasattr` false) as well as `None`. -/
structure Snapshot where
  status : Option String := none
  result : Option ResVal := none
  summary : Option ResVal := none
  output : Option String := none
  error : Option String := none
  web_url : Option String := none
deriving DecidableEq, Repr

/-- An ASCII apostrophe, used by the Python `str()` rendering of a dict. -/
def squote : Char := Char.ofNat 39

/-- Python `str()` rendering of a string-valued dict, e.g. `str({'a': 'b'})`. -/
def pyDictStr (kvs : List (String × String)) : String :=
  "\x7b" ++
    String.intercalate ", "
      (kvs.map (fun kv =>
        squote.toString ++ kv.1 ++ squote.toString ++ ": " ++
          squote.toString ++ kv.2 ++ squote.toString)) ++
  "\x7d"

/-- Python `d.get(k)` on a string-valued dict. -/
def dictGet (kvs : List (String × String)) (k : String) : Option String :=
  (kvs.find? (fun kv => kv.1 == k)).map (fun kv => kv.2)

/-- Python `a or b` where `a` is an optional string and `b` a string:
the left operand wins when it is truthy (present and non-empty). -/
def pyOrStr (a : Option String) (b : String) : String :=
  match a with
  | some s => if s == "" then b else s
  | none => b

/-- Python `str.lower()`; the status vocabulary involved is ASCII, on which
lowering is exactly per-character `Char.toLower`. -/
def pyLower (s : String) : String := String.mk (s.data.map Char.toLower)

/-- Status normalisation used by every polling loop:
`task.status.lower() if task.status else "unknown"`. -/
def normStatus (st : Option String) : String :=
  match st with
  | none => "unknown"
  | some s => if s == "" then "unknown" else pyLower s

/-- Phase assigned to one snapshot by a poll tick of the loops. -/
inductive TickPhase where
  | completed
  | failed
  | running
deriving DecidableEq, Repr

/-- Per-tick classification of a normalised status string, exactly the
dispatch of the polling loops: `in ["completed", "complete"]`,
`== "failed"`, otherwise keep polling. -/
def classifyStatusStr (s : String) : TickPhase :=
  if s == "completed" || s == "complete" then .completed
  else if s == "failed" then .failed
  else .running

/-- Per-tick classification of a raw status field. -/
def classifyTick (st : Option String) : TickPhase :=
  classifyStatusStr (normStatus st)

/-- Fallback tail of the extraction chain: `web_url` synthesised message,
else the fixed default string (`AgentClient._extract_result`, methods 2 and 3). -/
def extractFallback (task : Snapshot) : String :=
  if strTruthy task.web_url then
    "Task completed successfully. View details at: " ++ task.web_url.getD ""
  else
    "Task completed successfully."

/-- Result extraction chain of `AgentClient._extract_result` (api.py 220-234),
also inlined verbatim in both streaming generators (api.py 295-305 and 846-856)
and in `get_task_status`: a truthy plain-string `result` wins; a truthy dict
`result` yields `get('content') or get('response') or str(result)`; otherwise
fall back to `web_url`, then to the fixed default string. -/
def extractResult (task : Snapshot) : String :=
  match task.result with
  | some (.str s) => if s == "" then extractFallback task else s
  | some (.dict kvs) =>
      if kvs == [] then extractFallback task
      else pyOrStr (dictGet kvs "content") (pyOrStr (dictGet kvs "response") (pyDictStr kvs))
  | none => extractFallback task

example : extractResult { status := some "completed", result := some (.str "Hello") } = "Hello" := by
  decide

example : extractResult { status := some "completed", result := some (.dict [("content", "X")]) } = "X" := by
  decide

example : extractResult { web_url := some "http://x" } =
    "Task completed successfully. View details at: http://x" := by
  decide

example : classifyTick (some "COMPLETED") = .completed := by decide

example : classifyTick (some "done") = .running := by decide

/-- One emitted JSON event, tagged by the value of its `"status"` field.
`initiated` is the initial update of the enhanced generator, `step` its
periodic progress update (`"status": "running"` with a `current_step`),
`statusUpd` the raw status update of the SSE generator. -/
inductive Event where
  | initiated
  | step (s : String)
  | statusUpd (st : String)
  | heartbeat
  | completed (result : String)
  | failed (error : String)
  | errorEv (msg : String) (recoverable : Bool)
  | timeout (error : String)
deriving DecidableEq, Repr

/-- Terminal event kinds of the design: completed, failed, timeout. -/
def isTerminal : Event → Bool
  | .completed _ => true
  | .failed _ => true
  | .timeout _ => true
  | _ => false

/-- Events of kind timeout. -/
def isTimeout : Event → Bool
  | .timeout _ => true
  | _ => false

/-- Events of kind error. -/
def isErrorEv : Event → Bool
  | .errorEv _ _ => true
  | _ => false

/-- Outcome of one `task.refresh()` call: an exception, or a mutated handle. -/
inductive Outcome where
  | err (msg : String)
  | ok (snap : Snapshot)
deriving DecidableEq, Repr

/-- Tick budget of both streaming loops (`max_retries = 300`). -/
def maxRetries : Nat := 300

/-- Progress step labels of the enhanced generator. -/
def steps : List String := ["Analyzing request", "Processing task", "Generating response"]

/-- Message yielded when the final status check of the enhanced generator
reads `current_status` although no refresh ever succeeded; the Python
interpreter raises an unbound-local error that the outer handler turns into
an error event (the exact interpreter wording is immaterial here). -/
def nameErrorMsg : String :=
  "cannot access local variable " ++ squote.toString ++ "current_status" ++
    squote.toString ++ " where it is not associated with a value"

/-- Code after the polling loop of `stream_task_updates_enhanced`
(api.py 361-386): when the last successfully read status is not
completed/complete/failed, salvage a forced completed event from `web_url`,
else emit a timeout event. `curSt = none` models `current_status` never
having been assigned (no refresh ever succeeded), which raises and is turned
into an error event by the outer handler (api.py 388-397). -/
def enhEpilogue (task : Snapshot) (curSt : Option String) : List Event :=
  match curSt with
  | none => [Event.errorEv nameErrorMsg false]
  | some st =>
      match classifyStatusStr st with
      | .completed => []
      | .failed => []
      | .running =>
          if strTruthy task.web_url then
            [Event.completed ("Task processing completed. View details at: " ++ task.web_url.getD "")]
          else
            [Event.timeout ("Task timed out after " ++ toString (maxRetries * 2) ++ " seconds")]

/-- Polling loop of `stream_task_updates_enhanced` (api.py 272-359).
`script i` is the outcome of the refresh on loop index `i`; `stepIdx` models
`current_step_index`; `task` the handle state (refresh mutates it in place,
an exception leaves it unchanged); `curSt` the `current_status` variable.
On each successful tick: a progress step event every 10th index, then the
terminal checks, then a heartbeat every 5th index; a refresh exception is
caught, surfaced as a recoverable error event, and the loop continues. -/
def enhLoop (script : Nat → Outcome) : Nat → Nat → Nat → Snapshot → Option String → List Event
  | 0, _, _, task, curSt => enhEpilogue task curSt
  | fuel + 1, i, stepIdx, task, curSt =>
    match script i with
    | .err e =>
        Event.errorEv ("Failed to refresh task: " ++ e) true ::
          enhLoop script fuel (i + 1) stepIdx task curSt
    | .ok snap =>
        let st := normStatus snap.status
        let emitStep := i % 10 == 0 && stepIdx < steps.length
        let stepEvs := if emitStep then [Event.step (steps.getD stepIdx "")] else []
        let stepIdx2 := if emitStep then min (stepIdx + 1) (steps.length - 1) else stepIdx
        match classifyStatusStr st with
        | .completed => stepEvs ++ [Event.completed (extractResult snap)]
        | .failed =>
            stepEvs ++ [Event.failed (pyOrStr snap.error "Task failed with unknown error")]
        | .running =>
            stepEvs ++ (if i % 5 == 0 then [Event.heartbeat] else []) ++
              enhLoop script fuel (i + 1) stepIdx2 snap (some st)

/-- Full event trace of `stream_task_updates_enhanced`: the initial
`initiated` update, then the polling loop from index 0 with an unassigned
`current_status`. -/
def enhTrace (script : Nat → Outcome) (task0 : Snapshot) : List Event :=
  Event.initiated :: enhLoop script maxRetries 0 0 task0 none

/-- While-loop of `stream_task_events.event_generator` (api.py 822-904).
`disc r` tells whether the client has disconnected when `retry_count = r`.
Returns the yielded events, whether the retry budget was exhausted
(`retry_count >= max_retries`), and the final handle state. A refresh
exception yields an error event and breaks the loop; a non-terminal tick
yields a raw status update followed by a heartbeat comment. -/
def sseLoop (script : Nat → Outcome) (disc : Nat → Bool) :
    Nat → Nat → Snapshot → List Event × Bool × Snapshot
  | 0, _, task => ([], true, task)
  | fuel + 1, r, task =>
    if disc r then ([], false, task)
    else
      match script r with
      | .err e => ([Event.errorEv ("Failed to refresh task: " ++ e) false], false, task)
      | .ok snap =>
          let st := normStatus snap.status
          match classifyStatusStr st with
          | .completed => ([Event.completed (extractResult snap)], false, snap)
          | .failed =>
              ([Event.failed (pyOrStr snap.error "Task failed with unknown error")], false, snap)
          | .running =>
              let rest := sseLoop script disc fuel (r + 1) snap
              (Event.statusUpd st :: Event.heartbeat :: rest.1, rest.2.1, rest.2.2)

/-- Stored value of one `active_tasks` entry (the task handle and wall-clock
creation time are omitted; they play no part in the claims). -/
structure SessionInfo where
  thread_id : Option String := none
  org_id : String := ""
  status : String := ""
  result : Option String := none
  web_url : Option String := none
  prompt : String := ""
deriving DecidableEq, Repr

/-- The process-wide `active_tasks` dict, keyed by task id in insertion order. -/
abbrev Registry := List (String × SessionInfo)

/-- Python `task_id in active_tasks`. -/
def regContains (reg : Registry) (tid : String) : Bool :=
  reg.any (fun kv => kv.1 == tid)

/-- Python `active_tasks[task_id]` lookup (as an option). -/
def regGet (reg : Registry) (tid : String) : Option SessionInfo :=
  (reg.find? (fun kv => kv.1 == tid)).map (fun kv => kv.2)

/-- Python `active_tasks[task_id] = info` (run_task, api.py 503-512): plain
dict assignment, which replaces any existing entry in place and otherwise
appends. -/
def storeTask (reg : Registry) (tid : String) (info : SessionInfo) : Registry :=
  match reg with
  | [] => [(tid, info)]
  | kv :: rest => if kv.1 == tid then (tid, info) :: rest else kv :: storeTask rest tid info

/-- Python `active_tasks.pop(task_id, None)` (generator cleanup, api.py 938). -/
def popTask (reg : Registry) (tid : String) : Registry :=
  reg.filter (fun kv => !(kv.1 == tid))

/-- Observable outcome of the DELETE cancel endpoint. -/
inductive CancelOutcome where
  | removed (tid : String)
  | notFound
deriving DecidableEq, Repr

/-- `cancel_task` (api.py 696-715): HTTP 404 when the id is absent,
otherwise pop the entry and report the removal. -/
def cancelTask (reg : Registry) (tid : String) : CancelOutcome × Registry :=
  if regContains reg tid then (.removed tid, popTask reg tid)
  else (.notFound, reg)

/-- Full run of `stream_task_events.event_generator` bound to `task_id = tid`:
the while loop, then - only when the retry budget was exhausted - the
timeout handling (api.py 906-926: a forced completed event when the handle
has a `web_url`, else a `failed` event with a timed-out message), and the
`finally` cleanup popping the id from `active_tasks`. -/
def sseRun (script : Nat → Outcome) (disc : Nat → Bool) (task0 : Snapshot)
    (tid : String) (reg : Registry) : List Event × Registry :=
  let res := sseLoop script disc maxRetries 0 task0
  let tail :=
    if res.2.1 then
      if strTruthy res.2.2.web_url then
        [Event.completed ("Task processing completed. View details at: " ++ res.2.2.web_url.getD "")]
      else
        [Event.failed ("Task timed out after " ++ toString (maxRetries * 2) ++ " seconds")]
    else []
  (res.1 ++ tail, popTask reg tid)

/-- Names bound at module level in backend/api.py (imports, module globals,
classes and functions), the environment in which the body of `run_task`
resolves global names. -/
def apiModuleNames : List String :=
  ["asyncio", "logging", "os", "json", "datetime", "Optional", "Dict", "Any",
   "AsyncGenerator", "FastAPI", "HTTPException", "Header", "BackgroundTasks",
   "Request", "CORSMiddleware", "StreamingResponse", "BaseModel", "Field",
   "uvicorn", "asynccontextmanager", "load_dotenv", "org_id", "token", "agent",
   "Agent", "Task", "CODEGEN_AVAILABLE", "logger", "TaskRequest", "TaskResponse",
   "TaskStatusResponse", "HealthResponse", "CodegenConfig", "ServerConfig",
   "get_codegen_config", "get_server_config", "active_tasks", "agent_clients",
   "AgentClient", "get_or_create_agent_client", "stream_task_updates_enhanced",
   "lifespan", "app", "server_config", "default_codegen_config", "run_task",
   "get_task_status", "list_active_tasks", "debug_task", "cancel_task",
   "health_check", "test_connection", "get_config", "stream_task_events",
   "debug_active_tasks"]

/-- The global name called at api.py line 535 to build the StreamingResponse. -/
def streamCallee : String := "stream_task_updates"

/-- Result of the streaming branch of `run_task` (api.py 533-550). -/
inductive RunTaskStreamResult where
  | streamingResponse
  | httpError (code : Nat)
deriving DecidableEq, Repr

/-- Streaming branch of `run_task`: the generator name is resolved against
the module globals when the StreamingResponse argument is evaluated; an
unresolvable name raises NameError, which the handler's generic
`except Exception` turns into an HTTP 500. -/
def runTaskStreamBranch : RunTaskStreamResult :=
  if apiModuleNames.contains streamCallee then .streamingResponse
  else .httpError 500

/-- Concrete snapshot: unknown status with a populated `web_url` (Scenario D). -/
def snapD : Snapshot := { status := some "unknown_status_xyz", web_url := some "http://x" }

/-- Concrete snapshot whose dict result populates only the key `message`. -/
def snapMsg : Snapshot :=
  { status := some "completed", result := some (.dict [("message", "hi")]) }

/-- Concrete snapshot whose `summary` dict holds a `content` value but whose
`result` is absent. -/
def snapSum : Snapshot :=
  { status := some "completed", summary := some (.dict [("content", "S")]) }

/-- Concrete completed snapshot with a plain-string result. -/
def snapHello : Snapshot := { status := some "completed", result := some (.str "Hello") }

/-- Concrete in-flight snapshot with no result-bearing field. -/
def runningSnap : Snapshot := { status := some "running" }

/-- Script on which every refresh call raises. -/
def errScript : Nat → Outcome := fun _ => Outcome.err "boom"

/-- Script whose first refresh raises and whose later refreshes return a
completed snapshot. -/
def errThenDone : Nat → Outcome := fun i => if i == 0 then Outcome.err "boom" else Outcome.ok snapHello

/-- Script on which every refresh returns the completed snapshot. -/
def okScript : Nat → Outcome := fun _ => Outcome.ok snapHello

/-- Script on which every refresh returns the in-flight snapshot. -/
def runningScript : Nat → Outcome := fun _ => Outcome.ok runningSnap

/-- A client that never disconnects. -/
def noDisc : Nat → Bool := fun _ => false

/-- Concrete registry entries for the registry claims. -/
def infoA : SessionInfo := { org_id := "o1", status := "initiated", prompt := "p1" }

/-- A second, distinct entry for the same task id. -/
def infoB : SessionInfo := { org_id := "o1", status := "initiated", prompt := "p2" }

/-- Specification-side probe, written from the words of the spec: given an
ordered key list, return the first present non-empty value of the dict.
Used only to compare the source-derived extraction chain against the
spec's description of it. -/
def specProbe (keys : List String) (kvs : List (String × String)) : Option String :=
  match keys with
  | [] => none
  | k :: ks =>
      match dictGet kvs k with
      | some v => if v == "" then specProbe ks kvs else some v
      | none => specProbe ks kvs

/-! Helper lemmas. -/

lemma getLast?_cons_of_getLast? {α : Type} {a t : α} {l : List α}
    (h : l.getLast? = some t) : (a :: l).getLast? = some t := by
  rw [show a :: l = [a] ++ l from rfl, List.getLast?_append, h]
  rfl

lemma getLast?_append_of_getLast? {α : Type} {t : α} {l₁ l₂ : List α}
    (h : l₂.getLast? = some t) : (l₁ ++ l₂).getLast? = some t := by
  rw [List.getLast?_append, h]
  rfl

/-- The polling loop of the enhanced generator, run from a state whose
`current_status` (if any) is still in flight, emits exactly one terminal
event, and that event is the last element of its output, provided every
refresh call succeeds. -/
lemma enhLoop_one_terminal (script : Nat → Outcome)
    (hok : ∀ i, ∃ snap, script i = Outcome.ok snap) :
    ∀ fuel i stepIdx task curSt,
      (curSt = none → 0 < fuel) →
      (∀ st, curSt = some st → classifyStatusStr st = .running) →
      (enhLoop script fuel i stepIdx task curSt).countP isTerminal = 1 ∧
        ∃ t, (enhLoop script fuel i stepIdx task curSt).getLast? = some t ∧ isTerminal t = true := by
  intro fuel
  induction fuel with
  | zero =>
    intro i stepIdx task curSt h0 hst
    cases curSt with
    | none => exact absurd (h0 rfl) (by omega)
    | some st =>
      have hrun := hst st rfl
      simp only [enhLoop, enhEpilogue, hrun]
      by_cases hw : strTruthy task.web_url = true
      · simp [hw, isTerminal]
      · simp only [Bool.not_eq_true] at hw
        simp [hw, isTerminal]
  | succ fuel ih =>
    intro i stepIdx task curSt h0 hst
    obtain ⟨snap, hsnap⟩ := hok i
    simp only [enhLoop, hsnap]
    cases hcl : classifyStatusStr (normStatus snap.status) with
    | completed =>
      simp only [hcl]
      by_cases hstep : (i % 10 == 0 && stepIdx < steps.length) = true
      · simp [hstep, isTerminal]
      · simp only [Bool.not_eq_true] at hstep
        simp [hstep, isTerminal]
    | failed =>
      simp only [hcl]
      by_cases hstep : (i % 10 == 0 && stepIdx < steps.length) = true
      · simp [hstep, isTerminal]
      · simp only [Bool.not_eq_true] at hstep
        simp [hstep, isTerminal]
    | running =>
      simp only [hcl]
      obtain ⟨hcnt, t, hlast, hter⟩ :=
        ih (i + 1) (if (i % 10 == 0 && stepIdx < steps.length) = true then
            min (stepIdx + 1) (steps.length - 1) else stepIdx)
          snap (some (normStatus snap.status))
          (fun h => by cases h)
          (fun st hs => by cases hs; exact hcl)
      constructor
      · simp only [List.countP_append, hcnt]
        by_cases hstep : (i % 10 == 0 && stepIdx < steps.length) = true
        · by_cases hhb : (i % 5 == 0) = true
          · simp [hstep, hhb, isTerminal]
          · simp only [Bool.not_eq_true] at hhb
            simp [hstep, hhb, isTerminal]
        · simp only [Bool.not_eq_true] at hstep
          by_cases hhb : (i % 5 == 0) = true
          · simp [hstep, hhb, isTerminal]
          · simp only [Bool.not_eq_true] at hhb
            simp [hstep, hhb, isTerminal]
      · exact ⟨t, getLast?_append_of_getLast? hlast, hter⟩

/-- The SSE while-loop, when every refresh succeeds and the client never
disconnects, either exhausts its budget having emitted no terminal event, or
stops early with exactly one terminal event as its last output. -/
lemma sseLoop_terminal (script : Nat → Outcome) (disc : Nat → Bool)
    (hok : ∀ i, ∃ snap, script i = Outcome.ok snap)
    (hdisc : ∀ r, disc r = false) :
    ∀ fuel r task,
      ((sseLoop script disc fuel r task).2.1 = true ∧
        (sseLoop script disc fuel r task).1.countP isTerminal = 0) ∨
      ((sseLoop script disc fuel r task).2.1 = false ∧
        (sseLoop script disc fuel r task).1.countP isTerminal = 1 ∧
        ∃ t, (sseLoop script disc fuel r task).1.getLast? = some t ∧ isTerminal t = true) := by
  intro fuel
  induction fuel with
  | zero =>
    intro r task
    left
    simp [sseLoop]
  | succ fuel ih =>
    intro r task
    obtain ⟨snap, hsnap⟩ := hok r
    simp only [sseLoop, hdisc r, hsnap]
    cases hcl : classifyStatusStr (normStatus snap.status) with
    | completed =>
      right
      simp [hcl, isTerminal]
    | failed =>
      right
      simp [hcl, isTerminal]
    | running =>
      simp only [hcl]
      rcases ih (r + 1) snap with ⟨hex, hcnt⟩ | ⟨hex, hcnt, t, hlast, hter⟩
      · left
        simp [hex, hcnt, isTerminal]
      · right
        refine ⟨by simpa using hex, by simp [hcnt, isTerminal], t, ?_, hter⟩
        exact getLast?_cons_of_getLast? (getLast?_cons_of_getLast? hlast)

/-- The polling loop of the enhanced generator, when every refresh succeeds,
every returned snapshot stays in flight and carries no `web_url`, ends in
exactly one timeout event. -/
lemma enhLoop_timeout (script : Nat → Outcome)
    (hok : ∀ i, ∃ snap, script i = Outcome.ok snap ∧
      classifyStatusStr (normStatus snap.status) = .running ∧
      strTruthy snap.web_url = false) :
    ∀ fuel i stepIdx task curSt,
      (curSt = none → 0 < fuel) →
      (∀ st, curSt = some st → classifyStatusStr st = .running) →
      strTruthy task.web_url = false →
      (enhLoop script fuel i stepIdx task curSt).countP isTimeout = 1 ∧
        (enhLoop script fuel i stepIdx task curSt).getLast? =
          some (Event.timeout ("Task timed out after " ++ toString (maxRetries * 2) ++ " seconds")) := by
  intro fuel
  induction fuel with
  | zero =>
    intro i stepIdx task curSt h0 hst hweb
    cases curSt with
    | none => exact absurd (h0 rfl) (by omega)
    | some st =>
      have hrun := hst st rfl
      simp [enhLoop, enhEpilogue, hrun, hweb, isTimeout]
  | succ fuel ih =>
    intro i stepIdx task curSt h0 hst hweb
    obtain ⟨snap, hsnap, hcl, hsweb⟩ := hok i
    simp only [enhLoop, hsnap, hcl]
    obtain ⟨hcnt, hlast⟩ :=
      ih (i + 1) (if (i % 10 == 0 && stepIdx < steps.length) = true then
          min (stepIdx + 1) (steps.length - 1) else stepIdx)
        snap (some (normStatus snap.status))
        (fun h => by cases h)
        (fun st hs => by cases hs; exact hcl)
        hsweb
    constructor
    · simp only [List.countP_append, hcnt]
      by_cases hstep : (i % 10 == 0 && stepIdx < steps.length) = true
      · by_cases hhb : (i % 5 == 0) = true
        · simp [hstep, hhb, isTimeout]
        · simp only [Bool.not_eq_true] at hhb
          simp [hstep, hhb, isTimeout]
      · simp only [Bool.not_eq_true] at hstep
        by_cases hhb : (i % 5 == 0) = true
        · simp [hstep, hhb, isTimeout]
        · simp only [Bool.not_eq_true] at hhb
          simp [hstep, hhb, isTimeout]
    · exact getLast?_append_of_getLast? hlast

/-- The SSE while-loop, when every refresh succeeds, every snapshot stays in
flight and carries no `web_url`, and the client never disconnects, exhausts
its budget, emits no terminal (and so no timeout) event, and hands a final
handle state without `web_url` to the timeout handling. -/
lemma sseLoop_exhaust (script : Nat → Outcome) (disc : Nat → Bool)
    (hok : ∀ i, ∃ snap, script i = Outcome.ok snap ∧
      classifyStatusStr (normStatus snap.status) = .running ∧
      strTruthy snap.web_url = false)
    (hdisc : ∀ r, disc r = false) :
    ∀ fuel r task, strTruthy task.web_url = false →
      (sseLoop script disc fuel r task).2.1 = true ∧
      (sseLoop script disc fuel r task).1.countP isTerminal = 0 ∧
      strTruthy (sseLoop script disc fuel r task).2.2.web_url = false := by
  intro fuel
  induction fuel with
  | zero =>
    intro r task hweb
    simp [sseLoop, hweb]
  | succ fuel ih =>
    intro r task hweb
    obtain ⟨snap, hsnap, hcl, hsweb⟩ := hok r
    simp only [sseLoop, hdisc r, hsnap, hcl]
    obtain ⟨hex, hcnt, hfin⟩ := ih (r + 1) snap hsweb
    exact ⟨by simpa using hex, by simp [hcnt, isTerminal], by simpa using hfin⟩

lemma append_ne_empty_left (p s : String) (hp : p ≠ "") : p ++ s ≠ "" := by
  intro h
  apply hp
  cases p with
  | mk pd =>
    cases s with
    | mk sd =>
      have hd : pd ++ sd = [] := congrArg String.data h
      rcases List.append_eq_nil.mp hd with ⟨h1, _⟩
      simp [h1]

lemma append_ne_empty_right (p s : String) (hs : s ≠ "") : p ++ s ≠ "" := by
  intro h
  apply hs
  cases p with
  | mk pd =>
    cases s with
    | mk sd =>
      have hd : pd ++ sd = [] := congrArg String.data h
      rcases List.append_eq_nil.mp hd with ⟨_, h2⟩
      simp [h2]

lemma pyOrStr_ne_empty (a : Option String) (b : String) (hb : b ≠ "") : pyOrStr a b ≠ "" := by
  cases a with
  | none => simpa [pyOrStr]
  | some s =>
    by_cases hs : (s == "") = true
    · simpa [pyOrStr, hs]
    · simp only [Bool.not_eq_true] at hs
      have hs2 : s ≠ "" := by simpa using hs
      simpa [pyOrStr, hs] using hs2

lemma pyDictStr_ne_empty (kvs : List (String × String)) : pyDictStr kvs ≠ "" := by
  unfold pyDictStr
  exact append_ne_empty_right _ _ (by decide)

lemma extractFallback_ne_empty (task : Snapshot) : extractFallback task ≠ "" := by
  unfold extractFallback
  by_cases hw : strTruthy task.web_url = true
  · simp only [hw, if_true]
    exact append_ne_empty_left _ _ (by decide)
  · simp only [Bool.not_eq_true] at hw
    simp [hw]

/-- The result extraction chain never returns the empty string. -/
lemma extractResult_ne_empty (snap : Snapshot) : extractResult snap ≠ "" := by
  unfold extractResult
  cases hr : snap.result with
  | none => exact extractFallback_ne_empty snap
  | some v =>
    cases v with
    | str s =>
      by_cases hs : (s == "") = true
      · simp only [hs, if_true]
        exact extractFallback_ne_empty snap
      · simp only [Bool.not_eq_true] at hs
        have hs2 : s ≠ "" := by simpa using hs
        simpa [hs] using hs2
    | dict kvs =>
      by_cases hk : (kvs == []) = true
      · simp only [hk, if_true]
        exact extractFallback_ne_empty snap
      · simp only [Bool.not_eq_true] at hk
        simp only [hk, Bool.false_eq_true, if_false]
        exact pyOrStr_ne_empty _ _ (pyOrStr_ne_empty _ _ (pyDictStr_ne_empty kvs))

/-- The enhanced polling loop absorbs a prefix of failed refresh calls:
`k` refresh errors followed by a tick whose snapshot classifies as completed
yield exactly `k` recoverable error events and exactly one terminal event,
the completed event, emitted last. -/
lemma enhLoop_err_prefix (script : Nat → Outcome) (e : String) (snap : Snapshot)
    (hcompl : classifyStatusStr (normStatus snap.status) = .completed) :
    ∀ k fuel i stepIdx task curSt,
      k < fuel →
      (∀ j, j < k → script (i + j) = Outcome.err e) →
      script (i + k) = Outcome.ok snap →
      (enhLoop script fuel i stepIdx task curSt).countP
          (fun ev => ev == Event.errorEv ("Failed to refresh task: " ++ e) true) = k ∧
        (enhLoop script fuel i stepIdx task curSt).countP isTerminal = 1 ∧
        (enhLoop script fuel i stepIdx task curSt).getLast? =
          some (Event.completed (extractResult snap)) := by
  intro k
  induction k with
  | zero =>
    intro fuel i stepIdx task curSt hk herr hok2
    cases fuel with
    | zero => exact absurd hk (by omega)
    | succ fuel =>
      simp only [Nat.add_zero] at hok2
      simp only [enhLoop, hok2, hcompl]
      by_cases hstep : (i % 10 == 0 && stepIdx < steps.length) = true
      · simp [hstep, isTerminal]
      · simp only [Bool.not_eq_true] at hstep
        simp [hstep, isTerminal]
  | succ k ih =>
    intro fuel i stepIdx task curSt hk herr hok2
    cases fuel with
    | zero => exact absurd hk (by omega)
    | succ fuel =>
      have h0 : script i = Outcome.err e := by
        have := herr 0 (by omega)
        simpa using this
      simp only [enhLoop, h0]
      obtain ⟨hcerr, hcterm, hlast⟩ := ih fuel (i + 1) stepIdx task curSt (by omega)
        (fun j hj => by
          have := herr (j + 1) (by omega)
          rw [show i + (j + 1) = i + 1 + j by omega] at this
          exact this)
        (by
          rw [show i + 1 + k = i + (k + 1) by omega]
          exact hok2)
      refine ⟨?_, ?_, getLast?_cons_of_getLast? hlast⟩
      · simp [List.countP_cons, hcerr]
      · simp [List.countP_cons, hcterm, isTerminal]

/-- A dict assignment stores the given value under the given key. -/
lemma regGet_storeTask (reg : Registry) (tid : String) (info : SessionInfo) :
    regGet (storeTask reg tid info) tid = some info := by
  induction reg with
  | nil => simp [storeTask, regGet, List.find?]
  | cons kv rest ih =>
    by_cases h : (kv.1 == tid) = true
    · simp [storeTask, regGet, h, List.find?]
    · simp only [Bool.not_eq_true] at h
      simpa [storeTask, regGet, h, List.find?] using ih

/-- After popping an id, the registry no longer contains it. -/
lemma regContains_popTask (reg : Registry) (tid : String) :
    regContains (popTask reg tid) tid = false := by
  simp [popTask, regContains, List.any_filter]

/-- Popping the same id twice leaves the same registry as popping it once. -/
lemma popTask_idem (reg : Registry) (tid : String) :
    popTask (popTask reg tid) tid = popTask reg tid := by
  simp [popTask, List.filter_filter]

/-- A status string outside the recognised terminal vocabulary keeps the
tick in the running phase. -/
lemma classifyStatusStr_running_of_not_mem (st : String)
    (h : st ∉ (["completed", "complete", "failed"] : List String)) :
    classifyStatusStr st = .running := by
  simp only [List.mem_cons, List.not_mem_nil, or_false, not_or] at h
  obtain ⟨h1, h2, h3⟩ := h
  simp [classifyStatusStr, h1, h2, h3]

lemma countP_timeout_le_terminal (l : List Event) :
    l.countP isTimeout ≤ l.countP isTerminal := by
  apply List.countP_mono_left
  intro e he hte
  cases e <;> simp_all [isTimeout, isTerminal]

set_option maxRecDepth 10000

/-! Claims. -/

/-- C2 (confirmed): the streaming branch of `run_task` builds its
StreamingResponse by calling the global name `stream_task_updates`, which is
not bound anywhere in the module (only `stream_task_updates_enhanced` is),
so the branch raises NameError and the client receives an HTTP 500 instead
of an event stream. -/
theorem run_task_streaming_branch_is_http_500 :
    runTaskStreamBranch = RunTaskStreamResult.httpError 500 ∧
    apiModuleNames.contains streamCallee = false ∧
    apiModuleNames.contains "stream_task_updates_enhanced" = true := by
  decide

/-- C4 counterexample: the polling loops recognise only `completed` and
`complete`; the claimed synonyms `finished`, `done`, `success`,
`successful` (in any casing) keep the session in the running phase. -/
theorem completed_synonyms_not_recognized :
    classifyTick (some "done") = TickPhase.running ∧
    classifyTick (some "finished") = TickPhase.running ∧
    classifyTick (some "success") = TickPhase.running ∧
    classifyTick (some "successful") = TickPhase.running ∧
    classifyTick (some "Done") = TickPhase.running ∧
    TickPhase.running ≠ TickPhase.completed := by
  decide

/-- C4 (amended): the per-tick classifier returns Completed for every casing
variant of `completed` or `complete` (the lowercased status is compared),
but the other synonyms claimed by the spec are not part of its vocabulary. -/
theorem classifier_case_insensitive_on_completed_complete (s : String)
    (h : pyLower s = "completed" ∨ pyLower s = "complete") :
    classifyTick (some s) = TickPhase.completed := by
  have hne : s ≠ "" := by
    intro he
    subst he
    rcases h with h | h <;> exact absurd h (by decide)
  have hbe : (s == "") = false := by simpa using hne
  simp only [classifyTick, normStatus, hbe, Bool.false_eq_true, if_false]
  rcases h with h | h <;> simp [classifyStatusStr, h]

/-- C4 witness: the uppercased spelling is classified Completed. -/
theorem classifier_case_insensitive_witness :
    (pyLower "COMPLETED" = "completed" ∨ pyLower "COMPLETED" = "complete") ∧
    classifyTick (some "COMPLETED") = TickPhase.completed :=
  ⟨Or.inl (by decide),
    classifier_case_insensitive_on_completed_complete "COMPLETED" (Or.inl (by decide))⟩

/-- C9 counterexample: storing a second session under an already-present
task id succeeds and replaces the stored entry; no duplicate-task error
exists. -/
theorem duplicate_task_id_silently_overwritten :
    regGet (storeTask (storeTask ([] : Registry) "t1" infoA) "t1" infoB) "t1" = some infoB ∧
    infoB ≠ infoA := by
  decide

/-- C9 (amended): `run_task` stores a session with a plain dict assignment,
which always succeeds: registering under an existing task id silently
overwrites the previous entry, and no duplicate-task error path exists. -/
theorem register_overwrites_existing_entry (reg : Registry) (tid : String) (info : SessionInfo) :
    regGet (storeTask reg tid info) tid = some info :=
  regGet_storeTask reg tid info

/-- C10 counterexample: cancelling an absent task id is reported as an
error (HTTP 404), and a second cancel of the same id reports a different
outcome than the first, so the endpoint's observable effect is not
idempotent. -/
theorem cancel_absent_task_id_is_404 :
    (cancelTask ([] : Registry) "t1").1 = CancelOutcome.notFound ∧
    (cancelTask ([("t1", infoA)] : Registry) "t1").1 = CancelOutcome.removed "t1" ∧
    (cancelTask (cancelTask ([("t1", infoA)] : Registry) "t1").2 "t1").1 = CancelOutcome.notFound ∧
    CancelOutcome.notFound ≠ CancelOutcome.removed "t1" := by
  decide

/-- C10 (amended): the registry-state effect of unregistering is
idempotent - popping twice equals popping once, both for the stream-cleanup
pop and for the cancel endpoint - but the cancel endpoint's reported
outcome is not: cancelling an absent task id answers 404 and leaves the
registry unchanged. -/
theorem unregister_state_idempotent (reg : Registry) (tid : String) :
    popTask (popTask reg tid) tid = popTask reg tid ∧
    (cancelTask (cancelTask reg tid).2 tid).2 = (cancelTask reg tid).2 ∧
    (regContains reg tid = false →
      (cancelTask reg tid).1 = CancelOutcome.notFound ∧ (cancelTask reg tid).2 = reg) := by
  refine ⟨popTask_idem reg tid, ?_, ?_⟩
  · by_cases h : regContains reg tid = true
    · simp [cancelTask, h, regContains_popTask]
    · simp only [Bool.not_eq_true] at h
      simp [cancelTask, h]
  · intro h
    simp [cancelTask, h]

/-- C10 witness: cancelling an id that is not in the registry. -/
theorem unregister_state_idempotent_witness :
    regContains [("t1", infoA)] "t2" = false ∧
    (cancelTask ([("t1", infoA)] : Registry) "t2").1 = CancelOutcome.notFound :=
  ⟨by decide, ((unregister_state_idempotent [("t1", infoA)] "t2").2.2 (by decide)).1⟩

/-- C5 counterexample: for a dict result populating only `message` the
extractor returns the Python string rendering of the whole dict, not the
value of `message`; and a populated `summary` field is never probed. -/
theorem extractor_ignores_message_text_answer_summary :
    extractResult snapMsg = pyDictStr [("message", "hi")] ∧
    extractResult snapMsg ≠ "hi" ∧
    extractResult snapSum = "Task completed successfully." ∧
    extractResult snapSum ≠ "S" := by
  decide

/-- C5 (amended): for a dict result the extractor probes, in order, only
the keys `content` and `response`, returning the first present non-empty
value and otherwise the string rendering of the dict; the `summary` and
`output` fields never influence the extraction. -/
theorem extractor_probes_content_response_then_str
    (snap : Snapshot) (kvs : List (String × String))
    (hres : snap.result = some (ResVal.dict kvs)) (hne : kvs ≠ []) :
    extractResult snap = (specProbe ["content", "response"] kvs).getD (pyDictStr kvs) ∧
    (∀ su ou, extractResult { snap with summary := su, output := ou } = extractResult snap) := by
  constructor
  · have hne2 : (kvs == []) = false := by simpa using hne
    simp only [extractResult, hres, hne2, Bool.false_eq_true, if_false]
    cases hc : dictGet kvs "content" with
    | some v =>
      by_cases hv : (v == "") = true
      · cases hr : dictGet kvs "response" with
        | some w =>
          by_cases hw : (w == "") = true
          · simp [specProbe, pyOrStr, hc, hr, hv, hw]
          · simp only [Bool.not_eq_true] at hw
            simp [specProbe, pyOrStr, hc, hr, hv, hw]
        | none => simp [specProbe, pyOrStr, hc, hr, hv]
      · simp only [Bool.not_eq_true] at hv
        simp [specProbe, pyOrStr, hc, hv]
    | none =>
      cases hr : dictGet kvs "response" with
      | some w =>
        by_cases hw : (w == "") = true
        · simp [specProbe, pyOrStr, hc, hr, hw]
        · simp only [Bool.not_eq_true] at hw
          simp [specProbe, pyOrStr, hc, hr, hw]
      | none => simp [specProbe, pyOrStr, hc, hr]
  · intro su ou
    rfl

/-- C5 witness: the dict populating only `message` instantiates the probe
law concretely. -/
theorem extractor_probes_witness :
    snapMsg.result = some (ResVal.dict [("message", "hi")]) ∧
    extractResult snapMsg = (specProbe ["content", "response"] [("message", "hi")]).getD
      (pyDictStr [("message", "hi")]) :=
  ⟨rfl, (extractor_probes_content_response_then_str snapMsg [("message", "hi")] rfl
    (by decide)).1⟩

/-- C6 (confirmed): the extraction chain is total and never returns the
empty string, and when `result`, `summary`, `output` and `web_url` are all
absent or empty it returns exactly the fixed default string. -/
theorem extractor_total_with_fixed_default (snap : Snapshot)
    (hres : resTruthy snap.result = false)
    (hsum : resTruthy snap.summary = false)
    (hout : strTruthy snap.output = false)
    (hurl : strTruthy snap.web_url = false) :
    extractResult snap = "Task completed successfully." ∧
    ∀ s2 : Snapshot, extractResult s2 ≠ "" := by
  constructor
  · cases hr : snap.result with
    | none => simp [extractResult, hr, extractFallback, hurl]
    | some v =>
      cases v with
      | str s =>
        rw [hr] at hres
        have hs : (s == "") = true := by
          cases hbe : (s == "") <;> simp [resTruthy, hbe] at hres ⊢
        simp [extractResult, hr, hs, extractFallback, hurl]
      | dict kvs =>
        rw [hr] at hres
        have hk : (kvs == []) = true := by
          cases hbe : (kvs == []) <;> simp [resTruthy, hbe] at hres ⊢
        simp [extractResult, hr, hk, extractFallback, hurl]
  · intro s2
    exact extractResult_ne_empty s2

/-- C6 witness: the empty snapshot yields the fixed default string. -/
theorem extractor_total_witness :
    resTruthy ({} : Snapshot).result = false ∧
    strTruthy ({} : Snapshot).web_url = false ∧
    extractResult ({} : Snapshot) = "Task completed successfully." :=
  ⟨by decide, by decide,
    (extractor_total_with_fixed_default {} (by decide) (by decide) (by decide) (by decide)).1⟩

/-- C3 counterexample: the snapshot of Scenario D (unknown status with a
populated `web_url`) is classified running by the poll tick, not Completed,
and the forced completed event the budget-exhaustion path would emit does
not carry the extraction chain's web_url fallback string. -/
theorem defensive_completion_not_applied_per_tick :
    classifyTick snapD.status = TickPhase.running ∧
    TickPhase.running ≠ TickPhase.completed ∧
    enhEpilogue snapD (some (normStatus snapD.status)) =
      [Event.completed "Task processing completed. View details at: http://x"] ∧
    "Task processing completed. View details at: http://x" ≠
      "Task completed successfully. View details at: http://x" ∧
    extractResult snapD = "Task completed successfully. View details at: http://x" := by
  decide

/-- C3 (amended): a snapshot whose status is none of
completed/complete/failed stays in the running phase at every poll tick,
whatever result-bearing fields it carries - defensive completion is not a
per-tick rule; only when the tick budget is exhausted does the epilogue
apply it, and then only from `web_url`, emitting one forced completed event
with the distinct salvage string; without a truthy `web_url` the epilogue
emits a timeout event regardless of `result` or `output`. -/
theorem defensive_completion_only_at_budget_exhaustion
    (s url : String) (snap : Snapshot)
    (hs : normStatus (some s) ∉ (["completed", "complete", "failed"] : List String))
    (hsnap : snap.web_url = some url) (hurl : url ≠ "") :
    classifyTick (some s) = TickPhase.running ∧
    enhEpilogue snap (some (normStatus (some s))) =
      [Event.completed ("Task processing completed. View details at: " ++ url)] ∧
    (∀ snap2 : Snapshot, strTruthy snap2.web_url = false →
      enhEpilogue snap2 (some (normStatus (some s))) =
        [Event.timeout "Task timed out after 600 seconds"]) := by
  have hrun := classifyStatusStr_running_of_not_mem _ hs
  refine ⟨hrun, ?_, ?_⟩
  · simp only [enhEpilogue, hrun, hsnap]
    have ht : strTruthy (some url) = true := by simp [strTruthy, hurl]
    simp [ht]
  · intro snap2 h2
    simp only [enhEpilogue, hrun, h2, Bool.false_eq_true, if_false]
    decide

/-- C3 witness: Scenario D instantiated. -/
theorem defensive_completion_witness :
    (normStatus (some "unknown_status_xyz") ∉
      (["completed", "complete", "failed"] : List String)) ∧
    classifyTick (some "unknown_status_xyz") = TickPhase.running ∧
    enhEpilogue snapD (some (normStatus (some "unknown_status_xyz"))) =
      [Event.completed ("Task processing completed. View details at: " ++ "http://x")] :=
  ⟨by decide,
    (defensive_completion_only_at_budget_exhaustion "unknown_status_xyz" "http://x" snapD
      (by decide) rfl (by decide)).1,
    (defensive_completion_only_at_budget_exhaustion "unknown_status_xyz" "http://x" snapD
      (by decide) rfl (by decide)).2.1⟩

/-- C1 counterexample: a session whose refresh calls all raise emits no
terminal event at all; the enhanced trace ends in an error event produced
when the final status check reads the never-assigned status variable. -/
theorem all_refresh_failures_emit_no_terminal :
    (enhTrace errScript ({} : Snapshot)).countP isTerminal = 0 ∧
    (enhTrace errScript ({} : Snapshot)).getLast? = some (Event.errorEv nameErrorMsg false) := by
  decide

/-- C1 (amended): for every session in which every refresh call succeeds -
and, on the SSE path, the client never disconnects - the emitted event
sequence contains exactly one terminal event (completed, failed or
timeout), and that terminal event is the last event of the sequence, so
nothing of any kind, heartbeat included, follows it; sessions with failing
refresh calls can end with no terminal event. -/
theorem single_terminal_event_when_refresh_succeeds
    (script : Nat → Outcome) (disc : Nat → Bool) (task0 : Snapshot)
    (tid : String) (reg : Registry)
    (hok : ∀ i, ∃ snap, script i = Outcome.ok snap)
    (hdisc : ∀ r, disc r = false) :
    ((enhTrace script task0).countP isTerminal = 1 ∧
      ∃ t, (enhTrace script task0).getLast? = some t ∧ isTerminal t = true) ∧
    ((sseRun script disc task0 tid reg).1.countP isTerminal = 1 ∧
      ∃ t, (sseRun script disc task0 tid reg).1.getLast? = some t ∧ isTerminal t = true) := by
  constructor
  · obtain ⟨hcnt, t, hlast, hter⟩ :=
      enhLoop_one_terminal script hok maxRetries 0 0 task0 none
        (fun _ => by decide) (fun st hs => by cases hs)
    refine ⟨?_, t, ?_, hter⟩
    · simp [enhTrace, List.countP_cons, isTerminal, hcnt]
    · simp only [enhTrace]
      exact getLast?_cons_of_getLast? hlast
  · rcases sseLoop_terminal script disc hok hdisc maxRetries 0 task0 with
      ⟨hex, hcnt⟩ | ⟨hex, hcnt, t, hlast, hter⟩
    · by_cases hw : strTruthy (sseLoop script disc maxRetries 0 task0).2.2.web_url = true
      · refine ⟨?_, Event.completed ("Task processing completed. View details at: " ++
          (sseLoop script disc maxRetries 0 task0).2.2.web_url.getD ""), ?_, by simp [isTerminal]⟩
        · simp [sseRun, hex, hw, List.countP_append, hcnt, isTerminal]
        · simp [sseRun, hex, hw]
      · simp only [Bool.not_eq_true] at hw
        refine ⟨?_, Event.failed ("Task timed out after " ++ toString (maxRetries * 2) ++ " seconds"),
          ?_, by simp [isTerminal]⟩
        · simp [sseRun, hex, hw, List.countP_append, hcnt, isTerminal]
        · simp [sseRun, hex, hw]
    · refine ⟨?_, t, ?_, hter⟩
      · simp [sseRun, hex, hcnt]
      · simp [sseRun, hex, hlast]

/-- C1 witness: a session completing on the first tick. -/
theorem single_terminal_event_witness :
    (enhTrace okScript ({} : Snapshot)).countP isTerminal = 1 ∧
    (sseRun okScript noDisc ({} : Snapshot) "t1" []).1.countP isTerminal = 1 :=
  ⟨(single_terminal_event_when_refresh_succeeds okScript noDisc {} "t1" []
      (fun _ => ⟨snapHello, rfl⟩) (fun _ => rfl)).1.1,
    (single_terminal_event_when_refresh_succeeds okScript noDisc {} "t1" []
      (fun _ => ⟨snapHello, rfl⟩) (fun _ => rfl)).2.1⟩

/-- C7 counterexample: in the SSE path a single refresh error ends the
session: the whole trace is one non-terminal error event, although a
completed snapshot was waiting at the very next tick. -/
theorem sse_refresh_error_ends_stream :
    (sseRun errThenDone noDisc ({} : Snapshot) "t1" [("t1", infoA)]).1 =
      [Event.errorEv ("Failed to refresh task: " ++ "boom") false] ∧
    (sseRun errThenDone noDisc ({} : Snapshot) "t1" [("t1", infoA)]).1.countP isTerminal = 0 ∧
    classifyTick snapHello.status = TickPhase.completed := by
  decide

/-- C7 (amended): in the enhanced path a refresh error is surfaced as a
non-terminal error event marked recoverable and polling continues under the
same tick budget - a prefix of `k` failing ticks followed by a completed
snapshot still yields exactly one terminal event; in the SSE path, by
contrast, a refresh error yields a non-recoverable error event and ends the
while-loop without a terminal event. -/
theorem enhanced_refresh_errors_recoverable
    (script : Nat → Outcome) (e : String) (snap task0 : Snapshot) (k : Nat)
    (hcompl : classifyTick snap.status = TickPhase.completed)
    (hk : k < maxRetries)
    (herr : ∀ j, j < k → script j = Outcome.err e)
    (hok2 : script k = Outcome.ok snap) :
    ((enhTrace script task0).countP
        (fun ev => ev == Event.errorEv ("Failed to refresh task: " ++ e) true) = k ∧
      (enhTrace script task0).countP isTerminal = 1 ∧
      (enhTrace script task0).getLast? = some (Event.completed (extractResult snap))) ∧
    (∀ (script2 : Nat → Outcome) (disc : Nat → Bool) (task : Snapshot) (fuel r : Nat) (e2 : String),
      disc r = false → script2 r = Outcome.err e2 →
      sseLoop script2 disc (fuel + 1) r task =
        ([Event.errorEv ("Failed to refresh task: " ++ e2) false], false, task)) := by
  constructor
  · have hcompl2 : classifyStatusStr (normStatus snap.status) = .completed := hcompl
    obtain ⟨hcerr, hcterm, hlast⟩ :=
      enhLoop_err_prefix script e snap hcompl2 k maxRetries 0 0 task0 none hk
        (fun j hj => by simpa using herr j hj)
        (by simpa using hok2)
    refine ⟨?_, ?_, ?_⟩
    · simp [enhTrace, List.countP_cons, hcerr]
    · simp [enhTrace, List.countP_cons, hcterm, isTerminal]
    · simp only [enhTrace]
      exact getLast?_cons_of_getLast? hlast
  · intro script2 disc task fuel r e2 hd hs
    simp [sseLoop, hd, hs]

/-- C7 witness: one failing tick, then a completed snapshot. -/
theorem enhanced_refresh_errors_witness :
    (enhTrace errThenDone ({} : Snapshot)).countP
        (fun ev => ev == Event.errorEv ("Failed to refresh task: " ++ "boom") true) = 1 ∧
    (enhTrace errThenDone ({} : Snapshot)).countP isTerminal = 1 :=
  ⟨(enhanced_refresh_errors_recoverable errThenDone "boom" snapHello {} 1 (by decide) (by decide)
      (fun j hj => by
        have hj0 : j = 0 := by omega
        subst hj0
        rfl)
      rfl).1.1,
    (enhanced_refresh_errors_recoverable errThenDone "boom" snapHello {} 1 (by decide) (by decide)
      (fun j hj => by
        have hj0 : j = 0 := by omega
        subst hj0
        rfl)
      rfl).1.2.1⟩

/-- C8 counterexample: a session polling an in-flight snapshot for its
whole budget in the SSE path emits no event of kind timeout; its terminal
event is of kind failed, carrying a timed-out message. -/
theorem sse_timeout_reports_failed_kind :
    (sseRun runningScript noDisc ({} : Snapshot) "t1" [("t1", infoA)]).1.countP isTimeout = 0 ∧
    (sseRun runningScript noDisc ({} : Snapshot) "t1" [("t1", infoA)]).1.getLast? =
      some (Event.failed "Task timed out after 600 seconds") := by
  decide

/-- C8 (amended): a session that stays in flight for its whole tick budget
with no result-bearing field ends, in the SSE path, with exactly one
terminal event of kind failed (not timeout) carrying a timed-out message,
and its task id is removed from the registry by the cleanup; the enhanced
generator's trace for the same session instead ends in exactly one timeout
event (and that generator never touches the registry). -/
theorem budget_exhaustion_behaviour
    (script : Nat → Outcome) (disc : Nat → Bool) (task0 : Snapshot) (tid : String) (reg : Registry)
    (hok : ∀ i, ∃ snap, script i = Outcome.ok snap ∧
      classifyTick snap.status = TickPhase.running ∧
      resTruthy snap.result = false ∧ strTruthy snap.web_url = false)
    (h0 : strTruthy task0.web_url = false)
    (hdisc : ∀ r, disc r = false) :
    (sseRun script disc task0 tid reg).1.countP isTerminal = 1 ∧
    (sseRun script disc task0 tid reg).1.getLast? =
      some (Event.failed "Task timed out after 600 seconds") ∧
    (sseRun script disc task0 tid reg).1.countP isTimeout = 0 ∧
    (sseRun script disc task0 tid reg).2 = popTask reg tid ∧
    regContains (sseRun script disc task0 tid reg).2 tid = false ∧
    (enhTrace script task0).countP isTimeout = 1 ∧
    (enhTrace script task0).getLast? = some (Event.timeout "Task timed out after 600 seconds") := by
  have hok2 : ∀ i, ∃ snap, script i = Outcome.ok snap ∧
      classifyStatusStr (normStatus snap.status) = .running ∧ strTruthy snap.web_url = false := by
    intro i
    obtain ⟨snap, h1, h2, _, h4⟩ := hok i
    exact ⟨snap, h1, h2, h4⟩
  obtain ⟨hex, hcnt, hfin⟩ := sseLoop_exhaust script disc hok2 hdisc maxRetries 0 task0 h0
  obtain ⟨hcnt2, hlast2⟩ :=
    enhLoop_timeout script hok2 maxRetries 0 0 task0 none
      (fun _ => by decide) (fun st hs => by cases hs) h0
  have hstr : ("Task timed out after " ++ toString (maxRetries * 2) ++ " seconds") =
      "Task timed out after 600 seconds" := by decide
  have htime : (sseLoop script disc maxRetries 0 task0).1.countP isTimeout = 0 := by
    have hle := countP_timeout_le_terminal (sseLoop script disc maxRetries 0 task0).1
    omega
  rw [hstr] at hlast2
  refine ⟨?_, ?_, ?_, rfl, ?_, ?_, ?_⟩
  · simp [sseRun, hex, hfin, List.countP_append, hcnt, isTerminal]
  · simp [sseRun, hex, hfin, hstr]
  · simp [sseRun, hex, hfin, List.countP_append, htime, isTimeout]
  · exact regContains_popTask reg tid
  · simp [enhTrace, List.countP_cons, isTimeout, hcnt2]
  · simp only [enhTrace]
    exact getLast?_cons_of_getLast? hlast2

/-- C8 witness: the all-running session instantiated. -/
theorem budget_exhaustion_witness :
    (sseRun runningScript noDisc ({} : Snapshot) "t1" [("t1", infoA)]).1.countP isTerminal = 1 ∧
    regContains (sseRun runningScript noDisc ({} : Snapshot) "t1" [("t1", infoA)]).2 "t1" = false ∧
    (enhTrace runningScript ({} : Snapshot)).countP isTimeout = 1 :=
  ⟨(budget_exhaustion_behaviour runningScript noDisc {} "t1" [("t1", infoA)]
      (fun _ => ⟨runningSnap, rfl, by decide, by decide, by decide⟩) (by decide) (fun _ => rfl)).1,
    (budget_exhaustion_behaviour runningScript noDisc {} "t1" [("t1", infoA)]
      (fun _ => ⟨runningSnap, rfl, by decide, by decide, by decide⟩) (by decide) (fun _ => rfl)).2.2.2.2.1,
    (budget_exhaustion_behaviour runningScript noDisc {} "t1" [("t1", infoA)]
      (fun _ => ⟨runningSnap, rfl, by decide, by decide, by decide⟩) (by decide) (fun _ => rfl)).2.2.2.2.2.1⟩

end CPR
